import Mathlib

/-!
Shallow embedding of the projection engine of `streamlit_app.py`
(startup-metrics). Python floats are modelled as exact rationals, Python
ints as `ℤ`, and Python's `int(...)` conversion as truncation toward zero.
`float("inf")` is modelled as `⊤` in `WithTop ℚ`. Functions that read the
wall clock (`datetime.now()`) take the current day count as an explicit
`now` parameter.
-/

namespace StartupMetrics

/-- Python's `int(x)` conversion of a numeric value: truncation toward zero. -/
def pyInt (q : ℚ) : ℤ := q.num.tdiv (q.den : ℤ)

/-- `class GrowthModel(str, Enum)` with members Fixed / Linear / Exponential. -/
inductive GrowthModel where
  | FIXED
  | LINEAR
  | EXPONENTIAL
  deriving DecidableEq, Repr

/-- `class CustomerType(str, Enum)` with members B2B / B2C. -/
inductive CustomerType where
  | B2B
  | B2C
  deriving DecidableEq, Repr

/-- `@dataclass Scenario`. -/
structure Scenario where
  name : String
  revenue_multiplier : ℚ
  expense_multiplier : ℚ
  customer_growth_multiplier : ℚ
  color : String
  deriving DecidableEq, Repr

/-- `@dataclass CustomerMetrics`. -/
structure CustomerMetrics where
  total : ℤ
  new : ℤ
  cac : ℚ
  churn_rate : ℚ
  type : CustomerType
  deriving DecidableEq, Repr

/-- A Python runtime value passed to a metrics function: numeric, or a
non-numeric value (represented by a string). -/
inductive PyVal where
  | num : ℚ → PyVal
  | str : String → PyVal
  deriving DecidableEq, Repr

/-- `isinstance(v, (int, float))`. -/
def PyVal.isNumeric : PyVal → Bool
  | .num _ => true
  | .str _ => false

/-- The Python exceptions the metrics functions can raise. -/
inductive PyError where
  | valueError : String → PyError
  | typeError : String → PyError
  deriving DecidableEq, Repr

/-- Python's `v == 0`: true exactly for the numeric value zero. -/
def pyEqZero : PyVal → Bool
  | .num q => q == 0
  | .str _ => false

/-- `calculate_runway` with its dynamic `isinstance` check. -/
def calculate_runway_dyn : PyVal → PyVal → Except PyError PyVal
  | .num c, .num b => .ok (.num (if b ≤ 0 then 0 else c / b))
  | _, _ => .error (.valueError "Cash balance and monthly burn must be numeric values")

/-- `calculate_burn_rate` with its dynamic `isinstance` check. -/
def calculate_burn_rate_dyn : PyVal → PyVal → Except PyError PyVal
  | .num r, .num e => .ok (.num (e - r))
  | _, _ => .error (.valueError "Revenues and expenses must be numeric values")

/-- `calculate_mom_growth`: no `isinstance` check in the source; the `==` guard
never raises, and `-` / `/` on a non-numeric operand raise `TypeError`. -/
def calculate_mom_growth_dyn (current previous : PyVal) : Except PyError PyVal :=
  if pyEqZero previous then .ok (.num 0)
  else
    match current, previous with
    | .num c, .num p => .ok (.num ((c - p) / p * 100))
    | _, _ => .error (.typeError "unsupported operand type for binary operation")

/-- `calculate_runway` on numeric arguments. -/
def calculate_runway (cash_balance monthly_burn : ℚ) : ℚ :=
  if monthly_burn ≤ 0 then 0 else cash_balance / monthly_burn

/-- `calculate_burn_rate` on numeric arguments. -/
def calculate_burn_rate (revenues expenses : ℚ) : ℚ :=
  expenses - revenues

/-- `calculate_mom_growth` on numeric arguments. -/
def calculate_mom_growth (current previous : ℚ) : ℚ :=
  if previous = 0 then 0 else (current - previous) / previous * 100

/-- `calculate_ltv_cac_ratio`. -/
def calculate_ltv_cac_ratio (ltv cac : ℚ) : ℚ :=
  if cac = 0 then 0 else ltv / cac

/-- `calculate_lifetime_from_churn`; `float("inf")` is `⊤`. -/
def calculate_lifetime_from_churn (churn_rate : ℚ) : WithTop ℚ :=
  if 0 < churn_rate then ((1 / (churn_rate / 100) : ℚ) : WithTop ℚ) else ⊤

/-- Gregorian leap-year test, for the `%Y-%m` date labels. -/
def isLeap (y : ℕ) : Bool := (y % 4 == 0 && y % 100 != 0) || (y % 400 == 0)

def daysInYear (y : ℕ) : ℕ := if isLeap y then 366 else 365

def monthLengths (y : ℕ) : List ℕ :=
  [31, if isLeap y then 29 else 28, 31, 30, 31, 30, 31, 31, 30, 31, 30, 31]

/-- Walk whole years off a day count (fuel-based structural recursion; the
first argument is an upper bound on the number of steps). -/
def yearFromDays : ℕ → ℕ → ℕ → ℕ × ℕ
  | 0, y, d => (y, d)
  | fuel + 1, y, d =>
    if d < daysInYear y then (y, d) else yearFromDays fuel (y + 1) (d - daysInYear y)

def monthFromDayOfYear : List ℕ → ℕ → ℕ → ℕ × ℕ
  | [], m, d => (m, d)
  | len :: rest, m, d => if d < len then (m, d) else monthFromDayOfYear rest (m + 1) (d - len)

/-- The `(year, month)` pair printed by `strftime("%Y-%m")` for a day counted
from 1970-01-01 (the epoch of `datetime`). -/
def ymOfDays (d : ℕ) : ℕ × ℕ :=
  let yd := yearFromDays (d + 1) 1970 d
  let md := monthFromDayOfYear (monthLengths yd.1) 1 yd.2
  (yd.1, md.1)

/-- `generate_runway_projection`. `now` is the day count of `datetime.now()`;
`timedelta(days=30 * month)` shifts it by `30 * month` days. -/
def generate_runway_projection (now : ℕ) (cash_balance burn_rate runway_months : ℚ) :
    List (ℕ × ℕ) × List ℚ :=
  let months := List.range ((pyInt runway_months + 1).toNat)
  let projected_cash := months.map fun month => cash_balance - burn_rate * (month : ℚ)
  let dates := months.map fun month => ymOfDays (now + 30 * month)
  (dates, projected_cash)

/-- `calculate_revenue_projection`. -/
def calculate_revenue_projection (initial_revenue : ℚ) (months : ℕ) (model : GrowthModel)
    (linear_coefficient exponential_base : ℚ) : List ℚ :=
  (List.range (months + 1)).map fun month =>
    let revenue :=
      match model with
      | .FIXED => initial_revenue
      | .LINEAR => initial_revenue + initial_revenue * (linear_coefficient / 100) * (month : ℚ)
      | .EXPONENTIAL => initial_revenue * (1 + exponential_base / 100) ^ month
    max 0 revenue

/-- The per-segment loop of `calculate_customer_projection`: append the running
count, then update it according to the model (the exponential branch recomputes
from `metrics.total`). -/
def projAux (metrics : CustomerMetrics) (model : GrowthModel) (linear_growth : ℤ)
    (exponential_growth : ℚ) : ℤ → List ℕ → List ℤ
  | _, [] => []
  | current_customers, month :: rest =>
    let next :=
      match model with
      | .FIXED => current_customers + metrics.new
      | .LINEAR => current_customers + metrics.new + linear_growth * (month : ℤ)
      | .EXPONENTIAL => pyInt ((metrics.total : ℚ) * (1 + exponential_growth / 100) ^ month)
    current_customers :: projAux metrics model linear_growth exponential_growth next rest

/-- Python-dict assignment `d[k] = v`: replace in place if the key exists,
otherwise append (insertion order preserved). -/
def dictInsert (d : List (CustomerType × List ℤ)) (k : CustomerType) (v : List ℤ) :
    List (CustomerType × List ℤ) :=
  if d.any fun p => decide (p.1 = k) then
    d.map fun p => if p.1 = k then (k, v) else p
  else d ++ [(k, v)]

/-- Python-dict lookup `d[k]`. -/
def dictGet (d : List (CustomerType × List ℤ)) (k : CustomerType) : Option (List ℤ) :=
  (d.find? fun p => decide (p.1 = k)).map fun p => p.2

/-- `calculate_customer_projection`: `projections[metrics.type] = customers`
for `metrics in [b2b_metrics, b2c_metrics]`. -/
def calculate_customer_projection (b2b_metrics b2c_metrics : CustomerMetrics) (months : ℕ)
    (model : GrowthModel) (linear_growth : ℤ) (exponential_growth : ℚ) :
    List (CustomerType × List ℤ) :=
  [b2b_metrics, b2c_metrics].foldl
    (fun projections metrics =>
      dictInsert projections metrics.type
        (projAux metrics model linear_growth exponential_growth metrics.total
          (List.range (months + 1))))
    []

/-- The cash-depletion loop of `generate_scenario_projections`: append the
current cash, then subtract this month's burn (with 2% expense growth). -/
def cashAux (revenues : List ℚ) (adjusted_expenses : ℚ) : ℚ → List ℕ → List ℚ
  | _, [] => []
  | current_cash, month :: rest =>
    let monthly_burn :=
      calculate_burn_rate (revenues.getD month 0) (adjusted_expenses * (102 / 100 : ℚ) ^ month)
    current_cash :: cashAux revenues adjusted_expenses (current_cash - monthly_burn) rest

/-- `generate_scenario_projections`. `now` is the day count of `datetime.now()`. -/
def generate_scenario_projections (now : ℕ) (cash_balance monthly_revenue monthly_expenses : ℚ)
    (months : ℕ) (scenarios : List Scenario) (revenue_model : GrowthModel)
    (linear_coefficient exponential_base : ℚ) :
    List (String × List (ℕ × ℕ) × List ℚ × String) :=
  scenarios.map fun scenario =>
    let adjusted_initial_revenue := monthly_revenue * scenario.revenue_multiplier
    let adjusted_expenses := monthly_expenses * scenario.expense_multiplier
    let revenues := calculate_revenue_projection adjusted_initial_revenue months revenue_model
      (linear_coefficient * scenario.revenue_multiplier)
      (exponential_base * scenario.revenue_multiplier)
    let dates := (List.range (months + 1)).map fun month => ymOfDays (now + 30 * month)
    let projected_cash := cashAux revenues adjusted_expenses cash_balance
      (List.range (months + 1))
    (scenario.name, dates, projected_cash, scenario.color)

/-- The per-month loop of `calculate_customer_flow`: compute this month's new
customers from the model, churn from the pre-update total, clamp the updated
total at zero, and record all three. -/
def flowAux (new_customers : ℤ) (churn_rate : ℚ) (growth_model : GrowthModel)
    (linear_growth exponential_growth : ℚ) : ℤ → List ℕ → List ℤ × List ℤ × List ℤ
  | _, [] => ([], [], [])
  | current_total, month :: rest =>
    let new_this_month :=
      match growth_model with
      | .FIXED => new_customers
      | .LINEAR => pyInt ((new_customers : ℚ) * (1 + (linear_growth / 100) * (month : ℚ)))
      | .EXPONENTIAL => pyInt ((new_customers : ℚ) * (1 + exponential_growth / 100) ^ month)
    let churned_this_month := pyInt ((current_total : ℚ) * (churn_rate / 100))
    let updated_total := max 0 (current_total + new_this_month - churned_this_month)
    let tails := flowAux new_customers churn_rate growth_model linear_growth
      exponential_growth updated_total rest
    (new_this_month :: tails.1, churned_this_month :: tails.2.1, updated_total :: tails.2.2)

/-- `calculate_customer_flow`. -/
def calculate_customer_flow (initial_customers new_customers : ℤ) (churn_rate : ℚ)
    (months : ℕ) (growth_model : GrowthModel) (linear_growth exponential_growth : ℚ) :
    List ℤ × List ℤ × List ℤ :=
  flowAux new_customers churn_rate growth_model linear_growth exponential_growth
    initial_customers (List.range (months + 1))

/-! Helper lemmas. -/

theorem pyInt_intCast (n : ℤ) : pyInt (n : ℚ) = n := by
  simp [pyInt, Rat.num_intCast, Rat.den_intCast, Int.tdiv_one]

theorem range_succ_cons (n : ℕ) : List.range (n + 1) = 0 :: List.range' 1 n := by
  rw [List.range_eq_range' (n + 1), List.range'_succ]

theorem dict_behavior (l1 l2 : List ℤ) (t1 t2 t : CustomerType) :
    dictGet (dictInsert (dictInsert [] t1 l1) t2 l2) t =
      if t = t2 then some l2 else if t = t1 then some l1 else none := by
  cases t1 <;> cases t2 <;> cases t <;> simp [dictInsert, dictGet, List.find?]

theorem projAux_length (metrics : CustomerMetrics) (model : GrowthModel) (lg : ℤ) (eg : ℚ) :
    ∀ (l : List ℕ) (c : ℤ), (projAux metrics model lg eg c l).length = l.length := by
  intro l
  induction l with
  | nil => intro c; rfl
  | cons m rest ih => intro c; simp [projAux, ih]

theorem projAux_zero (metrics : CustomerMetrics) (model : GrowthModel) (lg : ℤ) (eg : ℚ)
    (c : ℤ) (m : ℕ) (rest : List ℕ) :
    (projAux metrics model lg eg c (m :: rest))[0]? = some c := by
  simp [projAux]

theorem projAux_exponential (metrics : CustomerMetrics) (lg : ℤ) (eg : ℚ) :
    ∀ (n a : ℕ) (c : ℤ),
      projAux metrics .EXPONENTIAL lg eg c (List.range' a (n + 1)) =
        c :: (List.range' (a + 1) n).map
          (fun k => pyInt ((metrics.total : ℚ) * (1 + eg / 100) ^ (k - 1))) := by
  intro n
  induction n with
  | zero => intro a c; simp [List.range'_succ, projAux]
  | succ n ih =>
    intro a c
    rw [List.range'_succ, projAux, ih (a + 1)]
    rw [List.range'_succ, List.map_cons]
    simp

theorem projection_dictGet (b2b_metrics b2c_metrics : CustomerMetrics) (months : ℕ)
    (model : GrowthModel) (lg : ℤ) (eg : ℚ) (t : CustomerType) :
    dictGet (calculate_customer_projection b2b_metrics b2c_metrics months model lg eg) t =
      if t = b2c_metrics.type then
        some (projAux b2c_metrics model lg eg b2c_metrics.total (List.range (months + 1)))
      else if t = b2b_metrics.type then
        some (projAux b2b_metrics model lg eg b2b_metrics.total (List.range (months + 1)))
      else none := by
  have h : calculate_customer_projection b2b_metrics b2c_metrics months model lg eg =
      dictInsert
        (dictInsert [] b2b_metrics.type
          (projAux b2b_metrics model lg eg b2b_metrics.total (List.range (months + 1))))
        b2c_metrics.type
        (projAux b2c_metrics model lg eg b2c_metrics.total (List.range (months + 1))) := rfl
  rw [h, dict_behavior]

theorem flowAux_length_new (newc : ℤ) (churn : ℚ) (model : GrowthModel) (lg eg : ℚ) :
    ∀ (l : List ℕ) (total : ℤ), (flowAux newc churn model lg eg total l).1.length = l.length := by
  intro l
  induction l with
  | nil => intro total; rfl
  | cons m rest ih => intro total; simp [flowAux, ih]

theorem flowAux_length_churned (newc : ℤ) (churn : ℚ) (model : GrowthModel) (lg eg : ℚ) :
    ∀ (l : List ℕ) (total : ℤ),
      (flowAux newc churn model lg eg total l).2.1.length = l.length := by
  intro l
  induction l with
  | nil => intro total; rfl
  | cons m rest ih => intro total; simp [flowAux, ih]

theorem flowAux_length_total (newc : ℤ) (churn : ℚ) (model : GrowthModel) (lg eg : ℚ) :
    ∀ (l : List ℕ) (total : ℤ),
      (flowAux newc churn model lg eg total l).2.2.length = l.length := by
  intro l
  induction l with
  | nil => intro total; rfl
  | cons m rest ih => intro total; simp [flowAux, ih]

theorem flowAux_total_mem_nonneg (newc : ℤ) (churn : ℚ) (model : GrowthModel) (lg eg : ℚ) :
    ∀ (l : List ℕ) (total t : ℤ),
      t ∈ (flowAux newc churn model lg eg total l).2.2 → 0 ≤ t := by
  intro l
  induction l with
  | nil => intro total t ht; simp [flowAux] at ht
  | cons m rest ih =>
    intro total t ht
    simp only [flowAux, List.mem_cons] at ht
    rcases ht with h | h
    · subst h; exact le_max_left 0 _
    · exact ih _ t h

theorem cashAux_range' (revenues : List ℚ) (e : ℚ) :
    ∀ (n a : ℕ) (c : ℚ),
      cashAux revenues e c (List.range' a n) =
        (List.range' a n).map (fun m =>
          c - ∑ j ∈ Finset.Ico a m, (e * (102 / 100 : ℚ) ^ j - revenues.getD j 0)) := by
  intro n
  induction n with
  | zero => intro a c; rfl
  | succ n ih =>
    intro a c
    rw [List.range'_succ, cashAux, ih (a + 1), List.map_cons]
    congr 1
    · rw [Finset.Ico_self, Finset.sum_empty, sub_zero]
    · apply List.map_congr_left
      intro m hm
      have ham : a + 1 ≤ m := (List.mem_range'_1.mp hm).1
      rw [Finset.sum_eq_sum_Ico_succ_bot (by omega : a < m)]
      simp only [calculate_burn_rate]
      ring

theorem projAux_exp_spec (metrics : CustomerMetrics) (lg : ℤ) (eg : ℚ) (months m : ℕ)
    (hm : m < months) :
    (projAux metrics .EXPONENTIAL lg eg metrics.total (List.range (months + 1)))[0]? =
        some metrics.total ∧
    (projAux metrics .EXPONENTIAL lg eg metrics.total (List.range (months + 1)))[m + 1]? =
        some (pyInt ((metrics.total : ℚ) * (1 + eg / 100) ^ m)) := by
  rw [List.range_eq_range' (months + 1),
    projAux_exponential metrics lg eg months 0 metrics.total]
  refine ⟨List.getElem?_cons_zero, ?_⟩
  rw [List.getElem?_cons_succ, List.getElem?_map]
  simp [List.getElem?_range', hm]

/-! Claim theorems. -/

/-- C1 counterexample: with a negative linear percentage the code clamps the
value at 0, so the claimed exact formula `R + (R * p/100) * m` fails: at
`R = 100, N = 1, p = -200` the code returns 0 at period 1 while the formula
gives `-100`. -/
theorem C1_counterexample :
    (calculate_revenue_projection 100 1 .LINEAR (-200) 0)[1]? = some 0 ∧
    (100 : ℚ) + 100 * ((-200 : ℚ) / 100) * 1 ≠ 0 := by
  constructor
  · norm_num [calculate_revenue_projection, List.range_succ]
  · norm_num

/-- C1 (amended): for every initial revenue `R`, horizon `N` and linear
percentage `p`, the Linear projection's value at period `m ≤ N` equals
`max 0 (R + (R * p/100) * m)` — the exact linear formula clamped at 0; in
particular `calculate_revenue_projection 10000 3 .LINEAR 10` returns
`[10000, 11000, 12000, 13000]`. -/
theorem C1_linear_revenue_projection (R p : ℚ) (months m : ℕ) :
    ((calculate_revenue_projection R months .LINEAR p 0)[m]? =
      if m ≤ months then some (max 0 (R + R * (p / 100) * (m : ℚ))) else none) ∧
    calculate_revenue_projection 10000 3 .LINEAR 10 0 = [10000, 11000, 12000, 13000] := by
  constructor
  · unfold calculate_revenue_projection
    rw [List.getElem?_map]
    by_cases h : m ≤ months
    · rw [if_pos h, List.getElem?_range (by omega)]
      rfl
    · rw [if_neg h, List.getElem?_eq_none (by simp; omega)]
      rfl
  · norm_num [calculate_revenue_projection, List.range_succ]

/-- C2: every element of the total-customers sequence returned by
`calculate_customer_flow` is non-negative, for every input combination. -/
theorem C2_flow_total_nonneg (initial_customers new_customers : ℤ) (churn_rate : ℚ)
    (months : ℕ) (growth_model : GrowthModel) (linear_growth exponential_growth : ℚ)
    (t : ℤ)
    (ht : t ∈ (calculate_customer_flow initial_customers new_customers churn_rate months
        growth_model linear_growth exponential_growth).2.2) :
    0 ≤ t :=
  flowAux_total_mem_nonneg new_customers churn_rate growth_model linear_growth
    exponential_growth (List.range (months + 1)) initial_customers t ht

/-- C2 witness: concrete run `calculate_customer_flow 20 5 0 0 Fixed 0 0` has
total sequence `[25]`, and the theorem yields `0 ≤ 25`. -/
theorem C2_flow_total_nonneg_witness :
    (25 : ℤ) ∈ (calculate_customer_flow 20 5 0 0 .FIXED 0 0).2.2 ∧ (0 : ℤ) ≤ 25 :=
  ⟨by norm_num [calculate_customer_flow, flowAux, List.range_succ, pyInt],
    C2_flow_total_nonneg 20 5 0 0 .FIXED 0 0 25
      (by norm_num [calculate_customer_flow, flowAux, List.range_succ, pyInt])⟩

/-- C5: `calculate_runway` returns `cash / burn` when `burn > 0` and `0`
otherwise, and is non-negative when `cash ≥ 0` and `burn > 0`. -/
theorem C5_runway (cash_balance monthly_burn : ℚ) :
    (0 < monthly_burn → calculate_runway cash_balance monthly_burn =
      cash_balance / monthly_burn) ∧
    (monthly_burn ≤ 0 → calculate_runway cash_balance monthly_burn = 0) ∧
    (0 ≤ cash_balance → 0 < monthly_burn → 0 ≤ calculate_runway cash_balance monthly_burn) := by
  refine ⟨fun h => ?_, fun h => ?_, fun hc hb => ?_⟩
  · rw [calculate_runway, if_neg (not_le.mpr h)]
  · rw [calculate_runway, if_pos h]
  · rw [calculate_runway, if_neg (not_le.mpr hb)]
    exact div_nonneg hc hb.le

/-- C5 witness: `calculate_runway 100000 12000 = 100000 / 12000` and
`calculate_runway 5 0 = 0`. -/
theorem C5_runway_witness :
    (0 : ℚ) < 12000 ∧ calculate_runway 100000 12000 = 100000 / 12000 ∧
    (0 : ℚ) ≤ 0 ∧ calculate_runway 5 0 = 0 :=
  ⟨by norm_num, (C5_runway 100000 12000).1 (by norm_num), le_refl 0,
    (C5_runway 5 0).2.1 (le_refl 0)⟩

/-- C6: `calculate_lifetime_from_churn` returns `1 / (c/100)` when `c > 0` and
`+∞` otherwise; in particular it is `+∞` at `c = 0` and `1` at `c = 100`. -/
theorem C6_lifetime_from_churn (churn_rate : ℚ) :
    (0 < churn_rate → calculate_lifetime_from_churn churn_rate =
      ((1 / (churn_rate / 100) : ℚ) : WithTop ℚ)) ∧
    (¬ 0 < churn_rate → calculate_lifetime_from_churn churn_rate = ⊤) ∧
    calculate_lifetime_from_churn 0 = ⊤ ∧
    calculate_lifetime_from_churn 100 = ((1 : ℚ) : WithTop ℚ) := by
  refine ⟨fun h => ?_, fun h => ?_, ?_, ?_⟩
  · rw [calculate_lifetime_from_churn, if_pos h]
  · rw [calculate_lifetime_from_churn, if_neg h]
  · rw [calculate_lifetime_from_churn, if_neg (lt_irrefl 0)]
  · rw [calculate_lifetime_from_churn, if_pos (by norm_num : (0 : ℚ) < 100)]
    norm_num

/-- C6 witness: instantiating at `c = 100` gives `1 / (100/100)`. -/
theorem C6_lifetime_from_churn_witness :
    (0 : ℚ) < 100 ∧
    calculate_lifetime_from_churn 100 = ((1 / ((100 : ℚ) / 100) : ℚ) : WithTop ℚ) :=
  ⟨by norm_num, (C6_lifetime_from_churn 100).1 (by norm_num)⟩

/-- C9 counterexample: `calculate_mom_growth` performs no numeric validation;
with a non-numeric `current` and `previous = 0` it returns `0` instead of
raising `InvalidInput` (a `ValueError`). -/
theorem C9_counterexample :
    calculate_mom_growth_dyn (.str "abc") (.num 0) = .ok (.num 0) := by
  simp [calculate_mom_growth_dyn, pyEqZero]

/-- C9 (amended): `calculate_runway` and `calculate_burn_rate` raise
`InvalidInput` (`ValueError`) when either argument is non-numeric, and
`calculate_burn_rate` otherwise returns `expenses - revenues`;
`calculate_mom_growth` performs no such validation — with `previous == 0` it
returns 0 even for non-numeric `current`, and otherwise a non-numeric argument
surfaces as a `TypeError` from the arithmetic, not as `InvalidInput`. -/
theorem C9_input_validation (r e v : PyVal) (a b p : ℚ) (s : String) :
    (¬ (r.isNumeric && e.isNumeric) = true →
      calculate_burn_rate_dyn r e =
        .error (.valueError "Revenues and expenses must be numeric values")) ∧
    calculate_burn_rate_dyn (.num a) (.num b) = .ok (.num (b - a)) ∧
    (¬ (r.isNumeric && e.isNumeric) = true →
      calculate_runway_dyn r e =
        .error (.valueError "Cash balance and monthly burn must be numeric values")) ∧
    calculate_mom_growth_dyn v (.num 0) = .ok (.num 0) ∧
    (p ≠ 0 → calculate_mom_growth_dyn (.str s) (.num p) =
      .error (.typeError "unsupported operand type for binary operation")) := by
  refine ⟨fun h => ?_, rfl, fun h => ?_, ?_, fun hp => ?_⟩
  · cases r <;> cases e <;> simp [PyVal.isNumeric] at h <;>
      simp [calculate_burn_rate_dyn]
  · cases r <;> cases e <;> simp [PyVal.isNumeric] at h <;>
      simp [calculate_runway_dyn]
  · simp [calculate_mom_growth_dyn, pyEqZero]
  · simp [calculate_mom_growth_dyn, pyEqZero, hp]

/-- C9 witness: `calculate_burn_rate` rejects a non-numeric argument, returns
`20000 - 8000` on the numeric example, and `calculate_mom_growth` raises
`TypeError` (not `ValueError`) for a non-numeric `current` with `previous = 5`. -/
theorem C9_input_validation_witness :
    ¬ ((PyVal.str "x").isNumeric && (PyVal.num 1).isNumeric) = true ∧
    calculate_burn_rate_dyn (.str "x") (.num 1) =
      .error (.valueError "Revenues and expenses must be numeric values") ∧
    calculate_burn_rate_dyn (.num 8000) (.num 20000) = .ok (.num (20000 - 8000)) ∧
    (5 : ℚ) ≠ 0 ∧
    calculate_mom_growth_dyn (.str "q") (.num 5) =
      .error (.typeError "unsupported operand type for binary operation") :=
  ⟨by decide,
    (C9_input_validation (.str "x") (.num 1) (.str "q") 8000 20000 5 "q").1 (by decide),
    (C9_input_validation (.str "x") (.num 1) (.str "q") 8000 20000 5 "q").2.1,
    by norm_num,
    (C9_input_validation (.str "x") (.num 1) (.str "q") 8000 20000 5 "q").2.2.2.2
      (by norm_num)⟩

/-- C10: the output of `calculate_customer_projection` is independent of the
`churn_rate` fields of its segment inputs: two input pairs that differ only in
their churn rates produce identical projections, for every horizon, model and
growth coefficients. -/
theorem C10_churn_rate_independent (b2b_metrics b2c_metrics : CustomerMetrics)
    (c1 c2 d1 d2 : ℚ) (months : ℕ) (model : GrowthModel) (lg : ℤ) (eg : ℚ) :
    calculate_customer_projection { b2b_metrics with churn_rate := c1 }
        { b2c_metrics with churn_rate := c2 } months model lg eg =
      calculate_customer_projection { b2b_metrics with churn_rate := d1 }
        { b2c_metrics with churn_rate := d2 } months model lg eg := by
  have hp : ∀ (metrics : CustomerMetrics) (x y : ℚ) (l : List ℕ) (c : ℤ),
      projAux { metrics with churn_rate := x } model lg eg c l =
        projAux { metrics with churn_rate := y } model lg eg c l := by
    intro metrics x y l
    induction l with
    | nil => intro c; rfl
    | cons m rest ih => intro c; simp [projAux, ih]
  simp only [calculate_customer_projection, List.foldl_cons, List.foldl_nil]
  rw [hp b2b_metrics c1 d1, hp b2c_metrics c2 d2]

/-- C3 counterexample: with `initial_total = 100`, `rate = 10`, `months = 1`,
the Exponential branch of `calculate_customer_projection` records 100 at
period 1, not `int(100 * (1 + 10/100) ** 1) = 110`: the value is recomputed
only after it has been appended, so the recorded value lags one period. -/
theorem C3_counterexample :
    dictGet (calculate_customer_projection ⟨100, 0, 0, 0, .B2B⟩ ⟨0, 0, 0, 0, .B2C⟩ 1
        .EXPONENTIAL 0 10) .B2B = some [100, 100] ∧
    (100 : ℤ) ≠ pyInt ((100 : ℚ) * (1 + 10 / 100) ^ 1) := by
  constructor
  · norm_num [calculate_customer_projection, dictGet, dictInsert, projAux, List.range_succ,
      pyInt, List.find?]
  · norm_num [pyInt]

/-- C3 (amended): under the Exponential model, the total recorded by
`calculate_customer_projection` for a segment is the segment's `total` at
period 0 and `initial_total * (1 + rate/100) ** m` truncated to an integer at
period `m + 1` (one period later than the exponent suggests, because the
append precedes the update); churn is never subtracted in any branch. -/
theorem C3_exponential_total_projection (b2b_metrics b2c_metrics : CustomerMetrics)
    (months : ℕ) (lg : ℤ) (eg : ℚ) (t : CustomerType) (l : List ℤ) (m : ℕ)
    (hl : dictGet (calculate_customer_projection b2b_metrics b2c_metrics months
        .EXPONENTIAL lg eg) t = some l)
    (hm : m < months) :
    l[0]? = some (if t = b2c_metrics.type then b2c_metrics.total else b2b_metrics.total) ∧
    l[m + 1]? = some (pyInt
      ((((if t = b2c_metrics.type then b2c_metrics.total else b2b_metrics.total) : ℤ) : ℚ) *
        (1 + eg / 100) ^ m)) := by
  rw [projection_dictGet] at hl
  by_cases h2 : t = b2c_metrics.type
  · rw [if_pos h2] at hl
    have hle := Option.some.inj hl
    subst hle
    simp only [if_pos h2]
    exact projAux_exp_spec b2c_metrics lg eg months m hm
  · rw [if_neg h2] at hl
    by_cases h1 : t = b2b_metrics.type
    · rw [if_pos h1] at hl
      have hle := Option.some.inj hl
      subst hle
      simp only [if_neg h2]
      exact projAux_exp_spec b2b_metrics lg eg months m hm
    · rw [if_neg h1] at hl
      exact absurd hl (by simp)

/-- C3 witness: the amended theorem instantiated on the counterexample's
inputs, at period `0 + 1`. -/
theorem C3_exponential_total_projection_witness :
    dictGet (calculate_customer_projection ⟨100, 0, 0, 0, .B2B⟩ ⟨0, 0, 0, 0, .B2C⟩ 1
        .EXPONENTIAL 0 10) .B2B = some [100, 100] ∧ 0 < 1 ∧
    ([100, 100] : List ℤ)[0]? =
      some (if CustomerType.B2B = CustomerType.B2C then (0 : ℤ) else 100) ∧
    ([100, 100] : List ℤ)[0 + 1]? =
      some (pyInt ((((if CustomerType.B2B = CustomerType.B2C then (0 : ℤ) else 100) : ℤ) : ℚ) *
        (1 + (10 : ℚ) / 100) ^ 0)) :=
  have hl : dictGet (calculate_customer_projection ⟨100, 0, 0, 0, .B2B⟩ ⟨0, 0, 0, 0, .B2C⟩ 1
      .EXPONENTIAL 0 10) .B2B = some [100, 100] := by
    norm_num [calculate_customer_projection, dictGet, dictInsert, projAux, List.range_succ,
      pyInt, List.find?]
  ⟨hl, Nat.zero_lt_one,
    (C3_exponential_total_projection ⟨100, 0, 0, 0, .B2B⟩ ⟨0, 0, 0, 0, .B2C⟩ 1 0 10 .B2B
      [100, 100] 0 hl Nat.zero_lt_one).1,
    (C3_exponential_total_projection ⟨100, 0, 0, 0, .B2B⟩ ⟨0, 0, 0, 0, .B2C⟩ 1 0 10 .B2B
      [100, 100] 0 hl Nat.zero_lt_one).2⟩

/-- C4 counterexample: the customer-flow trajectory does not start at the
current (input) state: with `initial = 20, new = 5, churn = 0, months = 0`,
the total recorded at period 0 is 25, not the input total 20 (period 0's new
and churned customers are already applied). -/
theorem C4_counterexample :
    (calculate_customer_flow 20 5 0 0 .FIXED 0 0).2.2[0]? = some 25 ∧ (25 : ℤ) ≠ 20 := by
  constructor
  · norm_num [calculate_customer_flow, flowAux, List.range_succ, pyInt]
  · norm_num

/-- C4 (amended): for every horizon `H ≥ 0` every produced trajectory has
exactly `H + 1` points indexed from period 0. The revenue projection starts at
`max 0 R`, the total-only customer projection starts at the segment's input
total, and each scenario cash trajectory starts at the unmodified input cash;
the customer-flow trajectory instead records at period 0 the total after
period 0's new and churned customers, `max 0 (initial + new - churned)`. -/
theorem C4_trajectory_shape (R lc eb : ℚ) (months : ℕ) (model : GrowthModel)
    (initial_customers new_customers : ℤ) (churn_rate lg eg : ℚ)
    (b2b_metrics b2c_metrics : CustomerMetrics) (lgz : ℤ) (egq : ℚ)
    (now : ℕ) (cash_balance monthly_revenue monthly_expenses : ℚ)
    (scenarios : List Scenario) (t : CustomerType) (l : List ℤ)
    (r : String × List (ℕ × ℕ) × List ℚ × String)
    (hl : dictGet (calculate_customer_projection b2b_metrics b2c_metrics months model
        lgz egq) t = some l)
    (hr : r ∈ generate_scenario_projections now cash_balance monthly_revenue
        monthly_expenses months scenarios model lc eb) :
    ((calculate_revenue_projection R months model lc eb).length = months + 1 ∧
      (calculate_revenue_projection R months model lc eb)[0]? = some (max 0 R)) ∧
    ((calculate_customer_flow initial_customers new_customers churn_rate months model
        lg eg).1.length = months + 1 ∧
      (calculate_customer_flow initial_customers new_customers churn_rate months model
        lg eg).2.1.length = months + 1 ∧
      (calculate_customer_flow initial_customers new_customers churn_rate months model
        lg eg).2.2.length = months + 1 ∧
      (calculate_customer_flow initial_customers new_customers churn_rate months model
        lg eg).2.2[0]? =
        some (max 0 (initial_customers + new_customers -
          pyInt ((initial_customers : ℚ) * (churn_rate / 100))))) ∧
    (l.length = months + 1 ∧
      l[0]? = some (if t = b2c_metrics.type then b2c_metrics.total else b2b_metrics.total)) ∧
    ((generate_scenario_projections now cash_balance monthly_revenue monthly_expenses
        months scenarios model lc eb).length = scenarios.length ∧
      r.2.2.1.length = months + 1 ∧ r.2.2.1[0]? = some cash_balance) := by
  refine ⟨⟨?_, ?_⟩, ⟨?_, ?_, ?_, ?_⟩, ⟨?_, ?_⟩, ⟨?_, ?_, ?_⟩⟩
  · simp [calculate_revenue_projection]
  · unfold calculate_revenue_projection
    rw [List.getElem?_map, List.getElem?_range (Nat.succ_pos months)]
    cases model <;> simp
  · rw [calculate_customer_flow, flowAux_length_new, List.length_range]
  · rw [calculate_customer_flow, flowAux_length_churned, List.length_range]
  · rw [calculate_customer_flow, flowAux_length_total, List.length_range]
  · rw [calculate_customer_flow, range_succ_cons]
    cases model <;> simp [flowAux, pyInt_intCast]
  · rw [projection_dictGet] at hl
    by_cases h2 : t = b2c_metrics.type
    · rw [if_pos h2] at hl
      have hle := Option.some.inj hl
      rw [← hle, projAux_length, List.length_range]
    · rw [if_neg h2] at hl
      by_cases h1 : t = b2b_metrics.type
      · rw [if_pos h1] at hl
        have hle := Option.some.inj hl
        rw [← hle, projAux_length, List.length_range]
      · rw [if_neg h1] at hl
        exact absurd hl (by simp)
  · rw [projection_dictGet] at hl
    by_cases h2 : t = b2c_metrics.type
    · rw [if_pos h2] at hl
      have hle := Option.some.inj hl
      rw [← hle, range_succ_cons, if_pos h2]
      exact projAux_zero b2c_metrics model lgz egq b2c_metrics.total 0 (List.range' 1 months)
    · rw [if_neg h2] at hl
      by_cases h1 : t = b2b_metrics.type
      · rw [if_pos h1] at hl
        have hle := Option.some.inj hl
        rw [← hle, range_succ_cons, if_neg h2]
        exact projAux_zero b2b_metrics model lgz egq b2b_metrics.total 0 (List.range' 1 months)
      · rw [if_neg h1] at hl
        exact absurd hl (by simp)
  · simp [generate_scenario_projections]
  · obtain ⟨s, hs, rfl⟩ := List.mem_map.mp hr
    show (cashAux (calculate_revenue_projection (monthly_revenue * s.revenue_multiplier)
      months model (lc * s.revenue_multiplier) (eb * s.revenue_multiplier))
      (monthly_expenses * s.expense_multiplier) cash_balance
      (List.range (months + 1))).length = months + 1
    rw [List.range_eq_range' (months + 1), cashAux_range', List.length_map,
      List.length_range']
  · obtain ⟨s, hs, rfl⟩ := List.mem_map.mp hr
    show (cashAux (calculate_revenue_projection (monthly_revenue * s.revenue_multiplier)
      months model (lc * s.revenue_multiplier) (eb * s.revenue_multiplier))
      (monthly_expenses * s.expense_multiplier) cash_balance
      (List.range (months + 1)))[0]? = some cash_balance
    rw [List.range_eq_range' (months + 1), cashAux_range', List.getElem?_map]
    simp [List.getElem?_range', Nat.succ_pos months]

/-- C4 witness: the amended theorem applied at a concrete input (horizon 0,
one scenario), with both hypotheses discharged by evaluation. -/
theorem C4_trajectory_shape_witness :
    dictGet (calculate_customer_projection ⟨100, 0, 0, 0, .B2B⟩ ⟨7, 0, 0, 0, .B2C⟩ 0
        .FIXED 0 0) .B2B = some [100] ∧
    ("Best", [(1970, 1)], [100], "green") ∈ generate_scenario_projections 0 100 10 20 0
        [⟨"Best", 1, 1, 1, "green"⟩] .FIXED 0 0 ∧
    ([100] : List ℤ).length = 0 + 1 ∧
    (("Best", [(1970, 1)], ([100] : List ℚ), "green") :
        String × List (ℕ × ℕ) × List ℚ × String).2.2.1[0]? = some 100 :=
  have hl : dictGet (calculate_customer_projection ⟨100, 0, 0, 0, .B2B⟩ ⟨7, 0, 0, 0, .B2C⟩ 0
      .FIXED 0 0) .B2B = some [100] := by
    norm_num [calculate_customer_projection, dictGet, dictInsert, projAux, List.range_succ,
      List.find?]
  have hgsp : generate_scenario_projections 0 100 10 20 0 [⟨"Best", 1, 1, 1, "green"⟩]
      .FIXED 0 0 = [("Best", [(1970, 1)], [100], "green")] := by
    have hd : ymOfDays 0 = (1970, 1) := by decide
    norm_num [generate_scenario_projections, calculate_revenue_projection, cashAux,
      calculate_burn_rate, List.range_succ, hd]
  have hr : ("Best", [(1970, 1)], ([100] : List ℚ), "green") ∈
      generate_scenario_projections 0 100 10 20 0 [⟨"Best", 1, 1, 1, "green"⟩]
        .FIXED 0 0 := by
    rw [hgsp]; exact List.Mem.head _
  have T := C4_trajectory_shape 5 0 0 0 .FIXED 20 5 0 0 0 ⟨100, 0, 0, 0, .B2B⟩
    ⟨7, 0, 0, 0, .B2C⟩ 0 0 0 100 10 20 [⟨"Best", 1, 1, 1, "green"⟩] .B2B [100]
    ("Best", [(1970, 1)], [100], "green") hl hr
  ⟨hl, hr, T.2.2.1.1, T.2.2.2.2.2⟩

/-- C7: `generate_scenario_projections` emits one result per scenario, in input
order (the output's name column equals the scenarios' name column), and the
cash value recorded for period `m` is the pre-decrement cash
`cash - Σ_{j<m} burn_j`: the starting cash minus the burns of the periods
before `m` only, so period 0 records the unmodified input cash. -/
theorem C7_scenario_cash_projection (now : ℕ)
    (cash_balance monthly_revenue monthly_expenses : ℚ) (months : ℕ)
    (scenarios : List Scenario) (revenue_model : GrowthModel) (lc eb : ℚ) :
    (generate_scenario_projections now cash_balance monthly_revenue monthly_expenses months
        scenarios revenue_model lc eb).map (fun r => r.1) =
      scenarios.map (fun s => s.name) ∧
    ∀ i : ℕ,
      ((generate_scenario_projections now cash_balance monthly_revenue monthly_expenses
          months scenarios revenue_model lc eb)[i]?).map (fun r => r.2.2.1) =
        (scenarios[i]?).map (fun s =>
          (List.range (months + 1)).map fun m =>
            cash_balance - ∑ j ∈ Finset.range m,
              (monthly_expenses * s.expense_multiplier * (102 / 100 : ℚ) ^ j -
                (calculate_revenue_projection (monthly_revenue * s.revenue_multiplier)
                    months revenue_model (lc * s.revenue_multiplier)
                    (eb * s.revenue_multiplier)).getD j 0)) := by
  constructor
  · simp [generate_scenario_projections]
  · intro i
    rw [generate_scenario_projections, List.getElem?_map]
    cases h : scenarios[i]? with
    | none => rfl
    | some s =>
      simp only [Option.map_some']
      congr 1
      show cashAux (calculate_revenue_projection (monthly_revenue * s.revenue_multiplier)
        months revenue_model (lc * s.revenue_multiplier) (eb * s.revenue_multiplier))
        (monthly_expenses * s.expense_multiplier) cash_balance (List.range (months + 1)) = _
      rw [List.range_eq_range' (months + 1), cashAux_range']
      apply List.map_congr_left
      intro m hm
      rw [Finset.range_eq_Ico]

/-- C8 counterexample: the date components of `generate_runway_projection`
depend on the wall clock (`datetime.now()`), not only on the explicit
arguments: two calls with identical explicit arguments made 40 days apart
return different outputs, so projector outputs are not bit-identical functions
of their arguments. -/
theorem C8_counterexample :
    (generate_runway_projection 0 100 10 0).1 = [(1970, 1)] ∧
    (generate_runway_projection 40 100 10 0).1 = [(1970, 2)] ∧
    generate_runway_projection 0 100 10 0 ≠ generate_runway_projection 40 100 10 0 := by
  refine ⟨by decide, by decide, fun h => ?_⟩
  have h1 : ([(1970, 1)] : List (ℕ × ℕ)) = [(1970, 2)] := by
    calc ([(1970, 1)] : List (ℕ × ℕ)) = (generate_runway_projection 0 100 10 0).1 := by decide
      _ = (generate_runway_projection 40 100 10 0).1 := by rw [h]
      _ = [(1970, 2)] := by decide
  simp at h1

/-- C8 (amended): every component of every projector's output other than the
date labels is a deterministic function of the explicit arguments: the cash
sequence of `generate_runway_projection` and the name, cash sequence and color
of each `generate_scenario_projections` entry are identical across calls at
different clock times (the purely argument-driven projectors are Lean
functions here, hence deterministic by construction); only the date components
vary with the clock. -/
theorem C8_deterministic_modulo_dates (now now2 : ℕ)
    (cash_balance burn_rate runway_months monthly_revenue monthly_expenses lc eb : ℚ)
    (months : ℕ) (scenarios : List Scenario) (model : GrowthModel) :
    (generate_runway_projection now cash_balance burn_rate runway_months).2 =
      (generate_runway_projection now2 cash_balance burn_rate runway_months).2 ∧
    (generate_scenario_projections now cash_balance monthly_revenue monthly_expenses months
        scenarios model lc eb).map (fun r => (r.1, r.2.2)) =
      (generate_scenario_projections now2 cash_balance monthly_revenue monthly_expenses
        months scenarios model lc eb).map (fun r => (r.1, r.2.2)) := by
  refine ⟨rfl, ?_⟩
  rw [generate_scenario_projections, generate_scenario_projections,
    List.map_map, List.map_map]
  exact List.map_congr_left fun s _ => rfl

end StartupMetrics
